import Mathlib

set_option linter.unusedVariables false

/-!
Verification of the Bedrock invocation script `Scripts/invoke_bedrock.py`.

The script is embedded shallowly: the file system is a map from paths to
optional contents, the parsing of the `json` library and the `boto3` remote call
are oracles supplied in an environment record, and the serialization
performed by `json.dump` / `json.dumps` is reproduced exactly (CPython
semantics for `ensure_ascii` and `indent`, restricted to integer numbers).
-/

/-- A JSON value as handled by the script (Python `json` module values,
with numbers restricted to integers). -/
inductive JVal where
  | null
  | bool (b : Bool)
  | num (n : Int)
  | str (s : String)
  | arr (xs : List JVal)
  | obj (kvs : List (String × JVal))

/-- Lowercase hexadecimal digit, as produced by the Python format `"%04x"`. -/
def hexDigit (n : Nat) : Char :=
  if n < 10 then Char.ofNat (48 + n) else Char.ofNat (87 + n)

/-- Four lowercase hex digits, the payload of the Python format `"\\u%04x"`. -/
def hex4 (n : Nat) : String :=
  String.mk [hexDigit (n / 4096 % 16), hexDigit (n / 256 % 16),
             hexDigit (n / 16 % 16), hexDigit (n % 16)]

/-- CPython `json.encoder` escaping of one character.  With
`ensure_ascii = true` every character outside `0x20`–`0x7e` is escaped
(`py_encode_basestring_ascii`); with `ensure_ascii = false` only `\\`, `"`
and control characters below `0x20` are escaped (`py_encode_basestring`). -/
def escByChar (ensureAscii : Bool) (c : Char) : String :=
  if c = '\\' then "\\\\"
  else if c = '"' then "\\\""
  else if c = '\u0008' then "\\b"
  else if c = '\u000c' then "\\f"
  else if c = '\n' then "\\n"
  else if c = '\r' then "\\r"
  else if c = '\t' then "\\t"
  else if c.toNat < 32 then "\\u" ++ hex4 c.toNat
  else if ensureAscii && 126 < c.toNat then
    if c.toNat < 65536 then "\\u" ++ hex4 c.toNat
    else
      "\\u" ++ hex4 (55296 + (c.toNat - 65536) / 1024) ++
      "\\u" ++ hex4 (56320 + (c.toNat - 65536) % 1024)
  else String.singleton c

/-- Escape a whole string (body of a JSON string literal). -/
def pyEscape (ensureAscii : Bool) (s : String) : String :=
  s.data.foldl (fun acc c => acc ++ escByChar ensureAscii c) ""

/-- A JSON string literal: quotes around the escaped body. -/
def pyQuote (ensureAscii : Bool) (s : String) : String :=
  "\"" ++ pyEscape ensureAscii s ++ "\""

/-- A run of `n` spaces. -/
def spaces (n : Nat) : String :=
  String.mk (List.replicate n ' ')

/-- The newline-plus-indentation inserted by `json.dump` when an `indent`
is given; empty when `indent = None`. -/
def nlInd (ind : Option Nat) (lvl : Nat) : String :=
  match ind with
  | none => ""
  | some w => "\n" ++ spaces (w * lvl)

/-- The item separator: the default `", "` when `indent = None`, plain
`","` when an indent is given (the newline supplies the spacing). -/
def itemSep (ind : Option Nat) : String :=
  match ind with
  | none => ", "
  | some _ => ","

/-- Decimal digits of a natural number, accumulated most-significant first. -/
def natStrAux (n : Nat) (acc : List Char) : List Char :=
  if h : n < 10 then Char.ofNat (48 + n) :: acc
  else natStrAux (n / 10) (Char.ofNat (48 + n % 10) :: acc)
termination_by n
decreasing_by
  exact Nat.div_lt_self (Nat.lt_of_lt_of_le (by omega) (Nat.le_of_not_lt h)) (by omega)

/-- Decimal rendering of a natural number (Python `str` on a nonnegative int). -/
def natStr (n : Nat) : String :=
  String.mk (natStrAux n [])

/-- Decimal rendering of an integer (Python `str(int)`). -/
def intStr (i : Int) : String :=
  if i < 0 then "-" ++ natStr i.natAbs else natStr i.natAbs

mutual

/-- CPython `json.dumps` of a value at nesting level `lvl`, with the given
`ensure_ascii` flag and optional `indent`, default separators
(`", "`/`": "` without indent, `","`/`": "` with one). -/
def dumpVal (ea : Bool) (ind : Option Nat) (lvl : Nat) : JVal → String
  | .null => "null"
  | .bool b => if b then "true" else "false"
  | .num n => intStr n
  | .str s => pyQuote ea s
  | .arr [] => "[]"
  | .arr (x :: xs) =>
      "[" ++ nlInd ind (lvl + 1) ++ dumpVal ea ind (lvl + 1) x ++
      dumpItems ea ind (lvl + 1) xs ++ nlInd ind lvl ++ "]"
  | .obj [] => "\x7b\x7d"
  | .obj (kv :: kvs) =>
      "\x7b" ++ nlInd ind (lvl + 1) ++ pyQuote ea kv.1 ++ ": " ++
      dumpVal ea ind (lvl + 1) kv.2 ++
      dumpEntries ea ind (lvl + 1) kvs ++ nlInd ind lvl ++ "\x7d"

/-- Remaining array items, each preceded by the separator and indentation. -/
def dumpItems (ea : Bool) (ind : Option Nat) (lvl : Nat) : List JVal → String
  | [] => ""
  | x :: xs =>
      itemSep ind ++ nlInd ind lvl ++ dumpVal ea ind lvl x ++
      dumpItems ea ind lvl xs

/-- Remaining object entries, each preceded by the separator and indentation. -/
def dumpEntries (ea : Bool) (ind : Option Nat) (lvl : Nat) :
    List (String × JVal) → String
  | [] => ""
  | kv :: kvs =>
      itemSep ind ++ nlInd ind lvl ++ pyQuote ea kv.1 ++ ": " ++
      dumpVal ea ind lvl kv.2 ++ dumpEntries ea ind lvl kvs

end

/-- Top-level `json.dumps(v, ensure_ascii = ea, indent = ind)`. -/
def pyDumps (ea : Bool) (ind : Option Nat) (v : JVal) : String :=
  dumpVal ea ind 0 v

example : pyDumps true none (.obj [("success", .bool true), ("message", .str "API call successful")]) =
    "\x7b\"success\": true, \"message\": \"API call successful\"\x7d" := by rfl

example : pyDumps false (some 2) (.obj [("reply", .str "ok")]) =
    "\x7b\n  \"reply\": \"ok\"\n\x7d" := by rfl

/-- The file system: a map from paths to the contents of the file there,
`none` when no file exists at the path. -/
def FS : Type := String → Option String

/-- An observable side effect of one run, in order of occurrence:
opening a file for reading, the remote `invoke_model` call (with the
region and service of the client recorded), opening a file for writing. -/
inductive Event where
  | openRead (path : String)
  | remoteCall (region service modelId body : String)
  | openWrite (path : String)
deriving Repr, DecidableEq

/-- The outcome of one process run: the exit code, the lines printed to
standard output, the final file system, and the trace of side effects. -/
structure RunResult where
  exitCode : Nat
  stdout : List String
  fs : FS
  trace : List Event

/-- A `json.JSONDecodeError`: message plus position, exactly the data its
`str` is built from. -/
structure DecodeErr where
  msg : String
  lineNo : Nat
  colNo : Nat
  pos : Nat

/-- The text `str(e)` of a `json.JSONDecodeError` (CPython formats it as
`"%s: line %d column %d (char %d)"`). -/
def DecodeErr.toStr (e : DecodeErr) : String :=
  e.msg ++ ": line " ++ natStr e.lineNo ++ " column " ++ natStr e.colNo ++
  " (char " ++ natStr e.pos ++ ")"

/-- The text `str(e)` of the `FileNotFoundError` raised by `open` on a missing
path. -/
def fnfDetails (path : String) : String :=
  "[Errno 2] No such file or directory: \u0027" ++ path ++ "\u0027"

/-- A `boto3` client, as constructed by `boto3.client(service_name = ...,
region_name = ...)`. -/
structure Client where
  service_name : String
  region_name : String

/-- What the remote `invoke_model` call does: return a response body
read from the response stream as a string, raise a
`botocore.exceptions.ClientError` with the given `str(e)`, or raise some
other exception with the given `str(e)`. -/
inductive RemoteResult where
  | ok (body : String)
  | clientErr (details : String)
  | otherErr (details : String)

/-- The ambient libraries the script calls into: JSON parsing
(`json.load`/`json.loads`), possible failure of `boto3.client`
construction (any such failure is not a `ClientError`), and the remote
call itself. -/
structure BotoEnv where
  loads : String → Except DecodeErr JVal
  clientCtorErr : Option String
  invokeModel : Client → String → String → RemoteResult

/-- The status line printed on success: the default `json.dumps` of the
dict with `success = True` and `message = "API call successful"`. -/
def successLine : String :=
  pyDumps true none (.obj [("success", .bool true), ("message", .str "API call successful")])

/-- The status line printed when the remote call raises a `ClientError`. -/
def awsErrorLine (details : String) : String :=
  pyDumps true none
    (.obj [("success", .bool false), ("error", .str "AWS API Error"), ("details", .str details)])

/-- The status line printed when any other exception is caught. -/
def unexpectedErrorLine (details : String) : String :=
  pyDumps true none
    (.obj [("success", .bool false), ("error", .str "Unexpected Error"), ("details", .str details)])

/-- A failing run that leaves the file system untouched. -/
def failWith (fs : FS) (trace : List Event) (line : String) : RunResult :=
  { exitCode := 1, stdout := [line], fs := fs, trace := trace }

/-- The client the script constructs:
`boto3.client(service_name = "bedrock-runtime", region_name = "ap-northeast-1")`,
both arguments hardcoded string constants. -/
def bedrockClient : Client :=
  { service_name := "bedrock-runtime", region_name := "ap-northeast-1" }

/-- The function `invoke_bedrock(model_id, input_file, output_file)` of
`Scripts/invoke_bedrock.py`: read and parse the input file, build the
`bedrock-runtime` client in region `ap-northeast-1`, send
`json.dumps(request_body)`, parse the response body, write it to the
output file with `ensure_ascii = False, indent = 2`, print the status
line; `ClientError` and all other exceptions are caught and turned into
the two failure lines with exit code 1. -/
def invoke_bedrock (env : BotoEnv) (model_id input_file output_file : String)
    (fs : FS) : RunResult :=
  match fs input_file with
  | none => failWith fs [.openRead input_file] (unexpectedErrorLine (fnfDetails input_file))
  | some contents =>
    match env.loads contents with
    | .error e => failWith fs [.openRead input_file] (unexpectedErrorLine e.toStr)
    | .ok request_body =>
      match env.clientCtorErr with
      | some d => failWith fs [.openRead input_file] (unexpectedErrorLine d)
      | none =>
        let bedrock : Client := bedrockClient
        let body := pyDumps true none request_body
        let callEv := Event.remoteCall bedrock.region_name bedrock.service_name model_id body
        match env.invokeModel bedrock model_id body with
        | .clientErr d =>
            failWith fs [.openRead input_file, callEv] (awsErrorLine d)
        | .otherErr d =>
            failWith fs [.openRead input_file, callEv] (unexpectedErrorLine d)
        | .ok respStr =>
          match env.loads respStr with
          | .error e =>
              failWith fs [.openRead input_file, callEv] (unexpectedErrorLine e.toStr)
          | .ok response_body =>
            { exitCode := 0,
              stdout := [successLine],
              fs := fun p => if p = output_file then
                      some (pyDumps false (some 2) response_body)
                    else fs p,
              trace := [.openRead input_file, callEv, .openWrite output_file] }

/-- The usage line printed by the `__main__` block on a wrong argument
count. -/
def usageLine : String :=
  "Usage: python3 invoke_bedrock.py <model_id> <input.json> <output.json>"

/-- The `__main__` block: `sys.argv` must have exactly 4 entries (script
name plus three positional arguments), otherwise the usage line is
printed and the process exits with code 1 before anything else happens. -/
def mainRun (env : BotoEnv) (argv : List String) (fs : FS) : RunResult :=
  if argv.length ≠ 4 then
    { exitCode := 1, stdout := [usageLine], fs := fs, trace := [] }
  else
    invoke_bedrock env (argv.getD 1 "") (argv.getD 2 "") (argv.getD 3 "") fs

/-- A printable ASCII character: code in the range 32–126.  Every
character emitted by `json.dumps` with `ensure_ascii = True` lies in this
range. -/
def asciiVis (c : Char) : Prop :=
  32 ≤ c.toNat ∧ c.toNat ≤ 126

instance (c : Char) : Decidable (asciiVis c) := by
  unfold asciiVis; infer_instance

/-- Every character of the string is printable ASCII. -/
def strAsciiP (s : String) : Prop :=
  ∀ c ∈ s.data, asciiVis c

instance (s : String) : Decidable (strAsciiP s) := by
  unfold strAsciiP; infer_instance

theorem strAsciiP_append {a b : String} (ha : strAsciiP a) (hb : strAsciiP b) :
    strAsciiP (a ++ b) := by
  intro c hc
  rw [String.data_append] at hc
  rcases List.mem_append.mp hc with h | h
  · exact ha c h
  · exact hb c h

theorem hexDigit_asciiVis {n : Nat} (h : n < 16) : asciiVis (hexDigit n) := by
  revert h
  revert n
  decide

theorem hex4_strAsciiP (n : Nat) : strAsciiP (hex4 n) := by
  intro c hc
  have hc2 : c ∈ [hexDigit (n / 4096 % 16), hexDigit (n / 256 % 16),
      hexDigit (n / 16 % 16), hexDigit (n % 16)] := hc
  simp only [List.mem_cons, List.not_mem_nil, or_false] at hc2
  rcases hc2 with h | h | h | h <;>
    exact h ▸ hexDigit_asciiVis (Nat.mod_lt _ (by omega))

set_option maxHeartbeats 1000000 in
theorem escByChar_true_strAsciiP (c : Char) : strAsciiP (escByChar true c) := by
  unfold escByChar
  split_ifs with h1 h2 h3 h4 h5 h6 h7 h8 h9 h10
  · decide
  · decide
  · decide
  · decide
  · decide
  · decide
  · decide
  · exact strAsciiP_append (by decide) (hex4_strAsciiP _)
  · exact strAsciiP_append (by decide) (hex4_strAsciiP _)
  · exact strAsciiP_append
      (strAsciiP_append (strAsciiP_append (by decide) (hex4_strAsciiP _)) (by decide))
      (hex4_strAsciiP _)
  · intro d hd
    have hd2 : d ∈ [c] := hd
    simp only [List.mem_cons, List.not_mem_nil, or_false] at hd2
    subst hd2
    simp only [Bool.true_and, decide_eq_true_eq, not_lt] at h8 h9
    exact ⟨by omega, h9⟩

theorem foldl_append_data (f : Char → String) :
    ∀ (l : List Char) (acc : String),
      (l.foldl (fun a c => a ++ f c) acc).data =
        acc.data ++ (l.map fun c => (f c).data).flatten
  | [], acc => by simp
  | c :: l, acc => by
      simp only [List.foldl_cons, List.map_cons, List.flatten]
      rw [foldl_append_data f l (acc ++ f c), String.data_append]
      simp [List.append_assoc]

theorem pyEscape_data (ea : Bool) (s : String) :
    (pyEscape ea s).data = (s.data.map fun c => (escByChar ea c).data).flatten := by
  unfold pyEscape
  rw [foldl_append_data]
  rfl

theorem pyEscape_true_strAsciiP (s : String) : strAsciiP (pyEscape true s) := by
  intro c hc
  rw [pyEscape_data] at hc
  rcases List.mem_flatten.mp hc with ⟨l, hl, hcl⟩
  rcases List.mem_map.mp hl with ⟨d, _, rfl⟩
  exact escByChar_true_strAsciiP d c hcl

theorem pyQuote_true_strAsciiP (s : String) : strAsciiP (pyQuote true s) := by
  exact strAsciiP_append (strAsciiP_append (by decide) (pyEscape_true_strAsciiP s)) (by decide)

theorem digitChar_asciiVis : ∀ m, m < 10 → asciiVis (Char.ofNat (48 + m)) := by
  decide

theorem natStrAux_digits : ∀ (n : Nat) (acc : List Char),
    (∀ c ∈ acc, asciiVis c) → ∀ c ∈ natStrAux n acc, asciiVis c
  | n, acc => by
    intro hacc c hc
    unfold natStrAux at hc
    split_ifs at hc with h
    · rcases List.mem_cons.mp hc with h2 | h2
      · rw [h2]
        exact digitChar_asciiVis n h
      · exact hacc c h2
    · refine natStrAux_digits (n / 10) _ ?_ c hc
      intro d hd
      rcases List.mem_cons.mp hd with h2 | h2
      · rw [h2]
        exact digitChar_asciiVis (n % 10) (Nat.mod_lt _ (by omega))
      · exact hacc d h2
termination_by n => n
decreasing_by
  exact Nat.div_lt_self (by omega) (by omega)

theorem natStr_strAsciiP (n : Nat) : strAsciiP (natStr n) := by
  intro c hc
  exact natStrAux_digits n [] (by intro c h; cases h) c hc

theorem intStr_strAsciiP (i : Int) : strAsciiP (intStr i) := by
  unfold intStr
  split_ifs with h
  · exact strAsciiP_append (by decide) (natStr_strAsciiP _)
  · exact natStr_strAsciiP _

mutual

theorem dumpVal_true_none_ascii : ∀ (lvl : Nat) (v : JVal), strAsciiP (dumpVal true none lvl v)
  | lvl, .null => show strAsciiP "null" by decide
  | lvl, .bool true => show strAsciiP "true" by decide
  | lvl, .bool false => show strAsciiP "false" by decide
  | lvl, .num n => intStr_strAsciiP n
  | lvl, .str s => pyQuote_true_strAsciiP s
  | lvl, .arr [] => show strAsciiP "[]" by decide
  | lvl, .arr (x :: xs) =>
      strAsciiP_append
        (strAsciiP_append
          (strAsciiP_append
            (strAsciiP_append (show strAsciiP "[" by decide)
              (dumpVal_true_none_ascii (lvl + 1) x))
            (dumpItems_true_none_ascii (lvl + 1) xs))
          (show strAsciiP "" by decide))
        (by decide)
  | lvl, .obj [] => show strAsciiP "\x7b\x7d" by decide
  | lvl, .obj (kv :: kvs) =>
      strAsciiP_append
        (strAsciiP_append
          (strAsciiP_append
            (strAsciiP_append
              (strAsciiP_append
                (strAsciiP_append (show strAsciiP "\x7b" by decide)
                  (pyQuote_true_strAsciiP kv.1))
                (by decide))
              (dumpVal_true_none_ascii (lvl + 1) kv.2))
            (dumpEntries_true_none_ascii (lvl + 1) kvs))
          (show strAsciiP "" by decide))
        (by decide)

theorem dumpItems_true_none_ascii : ∀ (lvl : Nat) (xs : List JVal),
    strAsciiP (dumpItems true none lvl xs)
  | lvl, [] => show strAsciiP "" by decide
  | lvl, x :: xs =>
      strAsciiP_append
        (strAsciiP_append (show strAsciiP ", " by decide)
          (dumpVal_true_none_ascii lvl x))
        (dumpItems_true_none_ascii lvl xs)

theorem dumpEntries_true_none_ascii : ∀ (lvl : Nat) (kvs : List (String × JVal)),
    strAsciiP (dumpEntries true none lvl kvs)
  | lvl, [] => show strAsciiP "" by decide
  | lvl, kv :: kvs =>
      strAsciiP_append
        (strAsciiP_append
          (strAsciiP_append
            (strAsciiP_append (show strAsciiP ", " by decide)
              (pyQuote_true_strAsciiP kv.1))
            (by decide))
          (dumpVal_true_none_ascii lvl kv.2))
        (dumpEntries_true_none_ascii lvl kvs)

end

theorem pyDumps_true_none_ascii (v : JVal) : strAsciiP (pyDumps true none v) :=
  dumpVal_true_none_ascii 0 v

mutual

/-- The characters appearing inside the string literals (keys and string
values) of a JSON value. -/
def jsonStrChars : JVal → List Char
  | .null => []
  | .bool _ => []
  | .num _ => []
  | .str s => s.data
  | .arr xs => jsonStrCharsItems xs
  | .obj kvs => jsonStrCharsEntries kvs

/-- String-literal characters of a list of values. -/
def jsonStrCharsItems : List JVal → List Char
  | [] => []
  | x :: xs => jsonStrChars x ++ jsonStrCharsItems xs

/-- String-literal characters of a list of object entries. -/
def jsonStrCharsEntries : List (String × JVal) → List Char
  | [] => []
  | kv :: kvs => kv.1.data ++ (jsonStrChars kv.2 ++ jsonStrCharsEntries kvs)

end

theorem escByChar_false_eq_singleton (c : Char) (h : 128 ≤ c.toNat) :
    escByChar false c = String.singleton c := by
  have h1 : c ≠ '\\' := fun he => absurd (he ▸ h) (by decide)
  have h2 : c ≠ '"' := fun he => absurd (he ▸ h) (by decide)
  have h3 : c ≠ '\u0008' := fun he => absurd (he ▸ h) (by decide)
  have h4 : c ≠ '\u000c' := fun he => absurd (he ▸ h) (by decide)
  have h5 : c ≠ '\n' := fun he => absurd (he ▸ h) (by decide)
  have h6 : c ≠ '\r' := fun he => absurd (he ▸ h) (by decide)
  have h7 : c ≠ '\t' := fun he => absurd (he ▸ h) (by decide)
  have h8 : ¬(c.toNat < 32) := by omega
  have h9 : ¬((false && decide (126 < c.toNat)) = true) := by simp
  unfold escByChar
  rw [if_neg h1, if_neg h2, if_neg h3, if_neg h4, if_neg h5, if_neg h6, if_neg h7,
      if_neg h8, if_neg h9]

theorem mem_pyEscape_of_mem {c : Char} (h : 128 ≤ c.toNat) {s : String}
    (hs : c ∈ s.data) : c ∈ (pyEscape false s).data := by
  rw [pyEscape_data]
  refine List.mem_flatten.mpr ⟨(escByChar false c).data, List.mem_map.mpr ⟨c, hs, rfl⟩, ?_⟩
  rw [escByChar_false_eq_singleton c h]
  exact List.mem_singleton.mpr rfl

theorem mem_str_append_left {c : Char} {a : String} (b : String) (h : c ∈ a.data) :
    c ∈ (a ++ b).data := by
  rw [String.data_append]
  exact List.mem_append_left _ h

theorem mem_str_append_right {c : Char} (a : String) {b : String} (h : c ∈ b.data) :
    c ∈ (a ++ b).data := by
  rw [String.data_append]
  exact List.mem_append_right _ h

theorem mem_pyQuote_of_mem {c : Char} (h : 128 ≤ c.toNat) {s : String}
    (hs : c ∈ s.data) : c ∈ (pyQuote false s).data :=
  mem_str_append_left _ (mem_str_append_right _ (mem_pyEscape_of_mem h hs))

mutual

theorem mem_dumpVal_of_mem_strChars (ind : Option Nat) (c : Char) (h : 128 ≤ c.toNat) :
    ∀ (lvl : Nat) (v : JVal), c ∈ jsonStrChars v → c ∈ (dumpVal false ind lvl v).data
  | lvl, .null, hm => absurd hm (List.not_mem_nil c)
  | lvl, .bool b, hm => absurd hm (List.not_mem_nil c)
  | lvl, .num n, hm => absurd hm (List.not_mem_nil c)
  | lvl, .str s, hm => mem_pyQuote_of_mem h hm
  | lvl, .arr [], hm => absurd hm (List.not_mem_nil c)
  | lvl, .arr (x :: xs), hm => by
      rcases List.mem_append.mp hm with hx | hxs
      · exact mem_str_append_left _ (mem_str_append_left _ (mem_str_append_left _
          (mem_str_append_right _ (mem_dumpVal_of_mem_strChars ind c h (lvl + 1) x hx))))
      · exact mem_str_append_left _ (mem_str_append_left _ (mem_str_append_right _
          (mem_dumpItems_of_mem_strChars ind c h (lvl + 1) xs hxs)))
  | lvl, .obj [], hm => absurd hm (List.not_mem_nil c)
  | lvl, .obj (kv :: kvs), hm => by
      rcases List.mem_append.mp hm with hk | hrest
      · exact mem_str_append_left _ (mem_str_append_left _ (mem_str_append_left _
          (mem_str_append_left _ (mem_str_append_left _
            (mem_str_append_right _ (mem_pyQuote_of_mem h hk))))))
      · rcases List.mem_append.mp hrest with hv | hkvs
        · exact mem_str_append_left _ (mem_str_append_left _ (mem_str_append_left _
            (mem_str_append_right _ (mem_dumpVal_of_mem_strChars ind c h (lvl + 1) kv.2 hv))))
        · exact mem_str_append_left _ (mem_str_append_left _ (mem_str_append_right _
            (mem_dumpEntries_of_mem_strChars ind c h (lvl + 1) kvs hkvs)))

theorem mem_dumpItems_of_mem_strChars (ind : Option Nat) (c : Char) (h : 128 ≤ c.toNat) :
    ∀ (lvl : Nat) (xs : List JVal), c ∈ jsonStrCharsItems xs →
      c ∈ (dumpItems false ind lvl xs).data
  | lvl, [], hm => absurd hm (List.not_mem_nil c)
  | lvl, x :: xs, hm => by
      rcases List.mem_append.mp hm with hx | hxs
      · exact mem_str_append_left _ (mem_str_append_right _
          (mem_dumpVal_of_mem_strChars ind c h lvl x hx))
      · exact mem_str_append_right _ (mem_dumpItems_of_mem_strChars ind c h lvl xs hxs)

theorem mem_dumpEntries_of_mem_strChars (ind : Option Nat) (c : Char) (h : 128 ≤ c.toNat) :
    ∀ (lvl : Nat) (kvs : List (String × JVal)), c ∈ jsonStrCharsEntries kvs →
      c ∈ (dumpEntries false ind lvl kvs).data
  | lvl, [], hm => absurd hm (List.not_mem_nil c)
  | lvl, kv :: kvs, hm => by
      rcases List.mem_append.mp hm with hk | hrest
      · exact mem_str_append_left _ (mem_str_append_left _ (mem_str_append_left _
          (mem_str_append_right _ (mem_pyQuote_of_mem h hk))))
      · rcases List.mem_append.mp hrest with hv | hkvs
        · exact mem_str_append_left _ (mem_str_append_right _
            (mem_dumpVal_of_mem_strChars ind c h lvl kv.2 hv))
        · exact mem_str_append_right _ (mem_dumpEntries_of_mem_strChars ind c h lvl kvs hkvs)

end

theorem mem_pyDumps_of_mem_strChars {c : Char} (h : 128 ≤ c.toNat) (ind : Option Nat)
    {v : JVal} (hm : c ∈ jsonStrChars v) : c ∈ (pyDumps false ind v).data :=
  mem_dumpVal_of_mem_strChars ind c h 0 v hm

/-- A string with a nonempty right component is nonempty. -/
theorem str_append_ne_empty_right (a : String) {b : String} (hb : b.data ≠ []) :
    a ++ b ≠ "" := by
  intro h
  have h2 := congrArg String.data h
  rw [String.data_append] at h2
  exact hb (List.append_eq_nil.mp h2).2

/-- A string with a nonempty left component is nonempty. -/
theorem str_append_ne_empty_left {a : String} (b : String) (ha : a.data ≠ []) :
    a ++ b ≠ "" := by
  intro h
  have h2 := congrArg String.data h
  rw [String.data_append] at h2
  exact ha (List.append_eq_nil.mp h2).1

theorem fnfDetails_ne_empty (path : String) : fnfDetails path ≠ "" :=
  str_append_ne_empty_right _ (by decide)

theorem decodeErr_toStr_ne_empty (e : DecodeErr) : e.toStr ≠ "" :=
  str_append_ne_empty_right _ (by decide)

/-- A file system with one input file holding the example request. -/
def fsWithInput : FS :=
  fun p => if p = "input.json" then some "\x7b\"prompt\": \"hi\"\x7d" else none

/-- The empty file system. -/
def fsEmpty : FS :=
  fun _ => none

/-- A stubbed `json.loads` recognizing the concrete documents used in the
examples and failing on everything else the way CPython does on a
non-JSON document. -/
def stubLoads (s : String) : Except DecodeErr JVal :=
  if s = "\x7b\"prompt\": \"hi\"\x7d" then .ok (.obj [("prompt", .str "hi")])
  else if s = "\x7b\"reply\": \"ok\"\x7d" then .ok (.obj [("reply", .str "ok")])
  else if s = "\x7b\"reply\": \"你好\"\x7d" then .ok (.obj [("reply", .str "你好")])
  else .error { msg := "Expecting value", lineNo := 1, colNo := 1, pos := 0 }

/-- A stubbed environment whose remote call deterministically echoes the
example reply. -/
def stubEnv : BotoEnv :=
  { loads := stubLoads
    clientCtorErr := none
    invokeModel := fun _ _ _ => .ok "\x7b\"reply\": \"ok\"\x7d" }

/-- A stubbed environment whose remote call returns a reply holding
non-ASCII text. -/
def stubEnvCN : BotoEnv :=
  { stubEnv with invokeModel := fun _ _ _ => .ok "\x7b\"reply\": \"你好\"\x7d" }

/-- A stubbed environment whose remote call raises a `ClientError`. -/
def stubEnvClientErr : BotoEnv :=
  { stubEnv with invokeModel := fun _ _ _ =>
      RemoteResult.clientErr "An error occurred (AccessDeniedException) when calling the InvokeModel operation" }

/-- Recognizes the remote-call event in a trace. -/
def isRemoteCall : Event → Bool
  | .remoteCall _ _ _ _ => true
  | _ => false

/-- Run shape when the input file is missing. -/
theorem invoke_eq_fnf (env : BotoEnv) (model_id input_file output_file : String) (fs : FS)
    (hread : fs input_file = none) :
    invoke_bedrock env model_id input_file output_file fs =
      failWith fs [.openRead input_file] (unexpectedErrorLine (fnfDetails input_file)) := by
  unfold invoke_bedrock
  rw [hread]

/-- Run shape when the input file does not parse as JSON. -/
theorem invoke_eq_parseErr (env : BotoEnv) (model_id input_file output_file : String) (fs : FS)
    (contents : String) (e : DecodeErr)
    (hread : fs input_file = some contents)
    (hparse : env.loads contents = .error e) :
    invoke_bedrock env model_id input_file output_file fs =
      failWith fs [.openRead input_file] (unexpectedErrorLine e.toStr) := by
  unfold invoke_bedrock
  rw [hread]
  simp only [hparse]

/-- Run shape when constructing the `boto3` client raises. -/
theorem invoke_eq_ctorErr (env : BotoEnv) (model_id input_file output_file : String) (fs : FS)
    (contents : String) (request_body : JVal) (d : String)
    (hread : fs input_file = some contents)
    (hparse : env.loads contents = .ok request_body)
    (hctor : env.clientCtorErr = some d) :
    invoke_bedrock env model_id input_file output_file fs =
      failWith fs [.openRead input_file] (unexpectedErrorLine d) := by
  unfold invoke_bedrock
  rw [hread]
  simp only [hparse, hctor]

/-- Run shape when the remote call raises a `ClientError`. -/
theorem invoke_eq_clientErr (env : BotoEnv) (model_id input_file output_file : String) (fs : FS)
    (contents : String) (request_body : JVal) (d : String)
    (hread : fs input_file = some contents)
    (hparse : env.loads contents = .ok request_body)
    (hctor : env.clientCtorErr = none)
    (hcall : env.invokeModel bedrockClient model_id (pyDumps true none request_body) =
      .clientErr d) :
    invoke_bedrock env model_id input_file output_file fs =
      failWith fs
        [.openRead input_file,
         .remoteCall "ap-northeast-1" "bedrock-runtime" model_id
           (pyDumps true none request_body)]
        (awsErrorLine d) := by
  unfold invoke_bedrock
  rw [hread]
  simp only [hparse, hctor, hcall]
  rfl

/-- Run shape when the remote call raises an exception that is not a
`ClientError`. -/
theorem invoke_eq_otherErr (env : BotoEnv) (model_id input_file output_file : String) (fs : FS)
    (contents : String) (request_body : JVal) (d : String)
    (hread : fs input_file = some contents)
    (hparse : env.loads contents = .ok request_body)
    (hctor : env.clientCtorErr = none)
    (hcall : env.invokeModel bedrockClient model_id (pyDumps true none request_body) =
      .otherErr d) :
    invoke_bedrock env model_id input_file output_file fs =
      failWith fs
        [.openRead input_file,
         .remoteCall "ap-northeast-1" "bedrock-runtime" model_id
           (pyDumps true none request_body)]
        (unexpectedErrorLine d) := by
  unfold invoke_bedrock
  rw [hread]
  simp only [hparse, hctor, hcall]
  rfl

/-- Run shape when the response body does not parse as JSON. -/
theorem invoke_eq_respParseErr (env : BotoEnv) (model_id input_file output_file : String)
    (fs : FS) (contents respStr : String) (request_body : JVal) (e : DecodeErr)
    (hread : fs input_file = some contents)
    (hparse : env.loads contents = .ok request_body)
    (hctor : env.clientCtorErr = none)
    (hcall : env.invokeModel bedrockClient model_id (pyDumps true none request_body) =
      .ok respStr)
    (hresp : env.loads respStr = .error e) :
    invoke_bedrock env model_id input_file output_file fs =
      failWith fs
        [.openRead input_file,
         .remoteCall "ap-northeast-1" "bedrock-runtime" model_id
           (pyDumps true none request_body)]
        (unexpectedErrorLine e.toStr) := by
  unfold invoke_bedrock
  rw [hread]
  simp only [hparse, hctor, hcall, hresp]
  rfl

/-- Run shape of a fully successful run. -/
theorem invoke_eq_success (env : BotoEnv) (model_id input_file output_file : String)
    (fs : FS) (contents respStr : String) (request_body response_body : JVal)
    (hread : fs input_file = some contents)
    (hparse : env.loads contents = .ok request_body)
    (hctor : env.clientCtorErr = none)
    (hcall : env.invokeModel bedrockClient model_id (pyDumps true none request_body) =
      .ok respStr)
    (hresp : env.loads respStr = .ok response_body) :
    invoke_bedrock env model_id input_file output_file fs =
      { exitCode := 0, stdout := [successLine],
        fs := fun p => if p = output_file then
                some (pyDumps false (some 2) response_body)
              else fs p,
        trace := [Event.openRead input_file,
          Event.remoteCall "ap-northeast-1" "bedrock-runtime" model_id
            (pyDumps true none request_body),
          Event.openWrite output_file] } := by
  unfold invoke_bedrock
  rw [hread]
  simp only [hparse, hctor, hcall, hresp]
  rfl

/-- C1: a run on a readable, well-formed JSON input whose remote call
returns a parseable JSON response writes to the output file exactly the
2-space-indented, non-ASCII-preserving serialization of the response
value, prints exactly the success status line, and returns exit code 0. -/
theorem claim_C1 (env : BotoEnv) (model_id input_file output_file : String) (fs : FS)
    (contents respStr : String) (request_body response_body : JVal)
    (hread : fs input_file = some contents)
    (hparse : env.loads contents = .ok request_body)
    (hctor : env.clientCtorErr = none)
    (hcall : env.invokeModel bedrockClient model_id (pyDumps true none request_body) =
      .ok respStr)
    (hresp : env.loads respStr = .ok response_body) :
    (invoke_bedrock env model_id input_file output_file fs).exitCode = 0 ∧
    (invoke_bedrock env model_id input_file output_file fs).stdout =
      ["\x7b\"success\": true, \"message\": \"API call successful\"\x7d"] ∧
    (invoke_bedrock env model_id input_file output_file fs).fs output_file =
      some (pyDumps false (some 2) response_body) := by
  rw [invoke_eq_success env model_id input_file output_file fs contents respStr
    request_body response_body hread hparse hctor hcall hresp]
  exact ⟨rfl, rfl, by simp⟩

/-- C1 witness: the concrete round trip of the example from the spec, with the
stubbed remote call echoing the example reply. -/
theorem claim_C1_witness :
    (invoke_bedrock stubEnv "model" "input.json" "output.json" fsWithInput).exitCode = 0 ∧
    (invoke_bedrock stubEnv "model" "input.json" "output.json" fsWithInput).stdout =
      ["\x7b\"success\": true, \"message\": \"API call successful\"\x7d"] ∧
    (invoke_bedrock stubEnv "model" "input.json" "output.json" fsWithInput).fs "output.json" =
      some "\x7b\n  \"reply\": \"ok\"\n\x7d" := by
  have h := claim_C1 stubEnv "model" "input.json" "output.json" fsWithInput
    "\x7b\"prompt\": \"hi\"\x7d" "\x7b\"reply\": \"ok\"\x7d"
    (.obj [("prompt", .str "hi")]) (.obj [("reply", .str "ok")])
    rfl rfl rfl rfl rfl
  refine ⟨h.1, h.2.1, ?_⟩
  rw [h.2.2]
  rfl

/-- C2: a run in which the remote call raises a `ClientError` prints the
single JSON failure line with error label `AWS API Error` and the
stringified error as details, returns exit code 1, and performs exactly
one remote call (no retry). -/
theorem claim_C2 (env : BotoEnv) (model_id input_file output_file : String) (fs : FS)
    (contents : String) (request_body : JVal) (d : String)
    (hread : fs input_file = some contents)
    (hparse : env.loads contents = .ok request_body)
    (hctor : env.clientCtorErr = none)
    (hcall : env.invokeModel bedrockClient model_id (pyDumps true none request_body) =
      .clientErr d) :
    (invoke_bedrock env model_id input_file output_file fs).exitCode = 1 ∧
    (invoke_bedrock env model_id input_file output_file fs).stdout = [awsErrorLine d] ∧
    ((invoke_bedrock env model_id input_file output_file fs).trace.filter
      (fun e => isRemoteCall e)).length = 1 := by
  rw [invoke_eq_clientErr env model_id input_file output_file fs contents request_body d
    hread hparse hctor hcall]
  exact ⟨rfl, rfl, rfl⟩

set_option maxRecDepth 8000 in
set_option maxHeartbeats 1000000 in
/-- C2 witness: the stubbed remote rejection, printing the concrete
failure line. -/
theorem claim_C2_witness :
    (invoke_bedrock stubEnvClientErr "model" "input.json" "output.json" fsWithInput).exitCode
      = 1 ∧
    (invoke_bedrock stubEnvClientErr "model" "input.json" "output.json" fsWithInput).stdout =
      ["\x7b\"success\": false, \"error\": \"AWS API Error\", \"details\": \"An error occurred (AccessDeniedException) when calling the InvokeModel operation\"\x7d"] ∧
    ((invoke_bedrock stubEnvClientErr "model" "input.json" "output.json" fsWithInput).trace.filter
      (fun e => isRemoteCall e)).length = 1 := by
  have h := claim_C2 stubEnvClientErr "model" "input.json" "output.json" fsWithInput
    "\x7b\"prompt\": \"hi\"\x7d" (.obj [("prompt", .str "hi")])
    "An error occurred (AccessDeniedException) when calling the InvokeModel operation"
    rfl rfl rfl rfl
  refine ⟨h.1, ?_, h.2.2⟩
  rw [h.2.1]
  rfl

/-- C3: any run failing on the input file (missing file or malformed
JSON) or on any other non-`ClientError` exception prints one JSON line
with error label `Unexpected Error` and a nonempty details string, and
returns exit code 1. -/
theorem claim_C3 (env : BotoEnv) (model_id input_file output_file : String) (fs : FS)
    (h : fs input_file = none
      ∨ (∃ s e, fs input_file = some s ∧ env.loads s = .error e)
      ∨ (∃ s v d, fs input_file = some s ∧ env.loads s = .ok v ∧
          env.clientCtorErr = some d ∧ d ≠ "")
      ∨ (∃ s v d, fs input_file = some s ∧ env.loads s = .ok v ∧ env.clientCtorErr = none ∧
          env.invokeModel bedrockClient model_id (pyDumps true none v) = .otherErr d ∧
          d ≠ "")
      ∨ (∃ s v r e, fs input_file = some s ∧ env.loads s = .ok v ∧ env.clientCtorErr = none ∧
          env.invokeModel bedrockClient model_id (pyDumps true none v) = .ok r ∧
          env.loads r = .error e)) :
    (invoke_bedrock env model_id input_file output_file fs).exitCode = 1 ∧
    ∃ d, d ≠ "" ∧
      (invoke_bedrock env model_id input_file output_file fs).stdout =
        [unexpectedErrorLine d] := by
  rcases h with h | ⟨s, e, hs, he⟩ | ⟨s, v, d, hs, hv, hd, hdne⟩ |
    ⟨s, v, d, hs, hv, hc, hd, hdne⟩ | ⟨s, v, r, e, hs, hv, hc, hr, he⟩
  · rw [invoke_eq_fnf env model_id input_file output_file fs h]
    exact ⟨rfl, fnfDetails input_file, fnfDetails_ne_empty input_file, rfl⟩
  · rw [invoke_eq_parseErr env model_id input_file output_file fs s e hs he]
    exact ⟨rfl, e.toStr, decodeErr_toStr_ne_empty e, rfl⟩
  · rw [invoke_eq_ctorErr env model_id input_file output_file fs s v d hs hv hd]
    exact ⟨rfl, d, hdne, rfl⟩
  · rw [invoke_eq_otherErr env model_id input_file output_file fs s v d hs hv hc hd]
    exact ⟨rfl, d, hdne, rfl⟩
  · rw [invoke_eq_respParseErr env model_id input_file output_file fs s r v e hs hv hc hr he]
    exact ⟨rfl, e.toStr, decodeErr_toStr_ne_empty e, rfl⟩

/-- C3 witness: the missing-input-file run, with its nonempty details. -/
theorem claim_C3_witness :
    fsEmpty "input.json" = none ∧
    ((invoke_bedrock stubEnv "model" "input.json" "output.json" fsEmpty).exitCode = 1 ∧
     ∃ d, d ≠ "" ∧
       (invoke_bedrock stubEnv "model" "input.json" "output.json" fsEmpty).stdout =
         [unexpectedErrorLine d]) :=
  ⟨rfl, claim_C3 stubEnv "model" "input.json" "output.json" fsEmpty (Or.inl rfl)⟩

/-- C4: any invocation whose argument count differs from the script name
plus three positionals prints the usage line, exits with code 1, and
performs no file or network activity (empty trace, file system
untouched). -/
theorem claim_C4 (env : BotoEnv) (argv : List String) (fs : FS) (h : argv.length ≠ 4) :
    (mainRun env argv fs).exitCode = 1 ∧
    (mainRun env argv fs).stdout =
      ["Usage: python3 invoke_bedrock.py <model_id> <input.json> <output.json>"] ∧
    (mainRun env argv fs).trace = [] ∧
    (mainRun env argv fs).fs = fs := by
  have hrun : mainRun env argv fs =
      { exitCode := 1, stdout := [usageLine], fs := fs, trace := [] } := by
    unfold mainRun
    rw [if_pos h]
  rw [hrun]
  exact ⟨rfl, rfl, rfl, rfl⟩

/-- C4 witness: a one-argument invocation. -/
theorem claim_C4_witness :
    (["invoke_bedrock.py"] : List String).length ≠ 4 ∧
    ((mainRun stubEnv ["invoke_bedrock.py"] fsEmpty).exitCode = 1 ∧
     (mainRun stubEnv ["invoke_bedrock.py"] fsEmpty).stdout =
       ["Usage: python3 invoke_bedrock.py <model_id> <input.json> <output.json>"] ∧
     (mainRun stubEnv ["invoke_bedrock.py"] fsEmpty).trace = [] ∧
     (mainRun stubEnv ["invoke_bedrock.py"] fsEmpty).fs = fsEmpty) :=
  ⟨by decide, claim_C4 stubEnv ["invoke_bedrock.py"] fsEmpty (by decide)⟩

/-- C5: when the remote response value contains a non-ASCII character in
one of its string literals, the content written to the output file
contains that character itself (UTF-8, literally), not an escape
sequence. -/
theorem claim_C5 (env : BotoEnv) (model_id input_file output_file : String) (fs : FS)
    (contents respStr : String) (request_body response_body : JVal)
    (hread : fs input_file = some contents)
    (hparse : env.loads contents = .ok request_body)
    (hctor : env.clientCtorErr = none)
    (hcall : env.invokeModel bedrockClient model_id (pyDumps true none request_body) =
      .ok respStr)
    (hresp : env.loads respStr = .ok response_body)
    (c : Char) (hc : 128 ≤ c.toNat) (hmem : c ∈ jsonStrChars response_body) :
    ∃ out, (invoke_bedrock env model_id input_file output_file fs).fs output_file = some out ∧
      c ∈ out.data := by
  refine ⟨pyDumps false (some 2) response_body, ?_,
    mem_pyDumps_of_mem_strChars hc (some 2) hmem⟩
  rw [invoke_eq_success env model_id input_file output_file fs contents respStr
    request_body response_body hread hparse hctor hcall hresp]
  simp

/-- C5 witness: the Chinese-text reply of the example from the spec survives to
the output file as its literal characters. -/
theorem claim_C5_witness :
    128 ≤ '你'.toNat ∧
    ∃ out,
      (invoke_bedrock stubEnvCN "model" "input.json" "output.json" fsWithInput).fs
        "output.json" = some out ∧ '你' ∈ out.data :=
  ⟨by decide,
   claim_C5 stubEnvCN "model" "input.json" "output.json" fsWithInput
     "\x7b\"prompt\": \"hi\"\x7d" "\x7b\"reply\": \"你好\"\x7d"
     (.obj [("prompt", .str "hi")]) (.obj [("reply", .str "你好")])
     rfl rfl rfl rfl rfl '你' (by decide) (by decide)⟩

/-- C6: two runs over file systems holding byte-identical input files,
against the same deterministic environment, have the same exit code and
standard output, and when they succeed they write byte-identical output
files. -/
theorem claim_C6 (env : BotoEnv) (model_id input_file output_file : String) (fs1 fs2 : FS)
    (h : fs1 input_file = fs2 input_file) :
    (invoke_bedrock env model_id input_file output_file fs1).exitCode =
      (invoke_bedrock env model_id input_file output_file fs2).exitCode ∧
    (invoke_bedrock env model_id input_file output_file fs1).stdout =
      (invoke_bedrock env model_id input_file output_file fs2).stdout ∧
    ((invoke_bedrock env model_id input_file output_file fs1).exitCode = 0 →
      (invoke_bedrock env model_id input_file output_file fs1).fs output_file =
        (invoke_bedrock env model_id input_file output_file fs2).fs output_file) := by
  cases hread : fs1 input_file with
  | none =>
    have hread2 : fs2 input_file = none := by rw [← h]; exact hread
    rw [invoke_eq_fnf env model_id input_file output_file fs1 hread,
        invoke_eq_fnf env model_id input_file output_file fs2 hread2]
    exact ⟨rfl, rfl, fun h0 => absurd h0 (by simp [failWith])⟩
  | some contents =>
    have hread2 : fs2 input_file = some contents := by rw [← h]; exact hread
    cases hparse : env.loads contents with
    | error e =>
      rw [invoke_eq_parseErr env model_id input_file output_file fs1 contents e hread hparse,
          invoke_eq_parseErr env model_id input_file output_file fs2 contents e hread2 hparse]
      exact ⟨rfl, rfl, fun h0 => absurd h0 (by simp [failWith])⟩
    | ok request_body =>
      cases hctor : env.clientCtorErr with
      | some d =>
        rw [invoke_eq_ctorErr env model_id input_file output_file fs1 contents request_body d
              hread hparse hctor,
            invoke_eq_ctorErr env model_id input_file output_file fs2 contents request_body d
              hread2 hparse hctor]
        exact ⟨rfl, rfl, fun h0 => absurd h0 (by simp [failWith])⟩
      | none =>
        cases hcall : env.invokeModel bedrockClient model_id (pyDumps true none request_body)
          with
        | clientErr d =>
          rw [invoke_eq_clientErr env model_id input_file output_file fs1 contents
                request_body d hread hparse hctor hcall,
              invoke_eq_clientErr env model_id input_file output_file fs2 contents
                request_body d hread2 hparse hctor hcall]
          exact ⟨rfl, rfl, fun h0 => absurd h0 (by simp [failWith])⟩
        | otherErr d =>
          rw [invoke_eq_otherErr env model_id input_file output_file fs1 contents
                request_body d hread hparse hctor hcall,
              invoke_eq_otherErr env model_id input_file output_file fs2 contents
                request_body d hread2 hparse hctor hcall]
          exact ⟨rfl, rfl, fun h0 => absurd h0 (by simp [failWith])⟩
        | ok respStr =>
          cases hresp : env.loads respStr with
          | error e =>
            rw [invoke_eq_respParseErr env model_id input_file output_file fs1 contents
                  respStr request_body e hread hparse hctor hcall hresp,
                invoke_eq_respParseErr env model_id input_file output_file fs2 contents
                  respStr request_body e hread2 hparse hctor hcall hresp]
            exact ⟨rfl, rfl, fun h0 => absurd h0 (by simp [failWith])⟩
          | ok response_body =>
            rw [invoke_eq_success env model_id input_file output_file fs1 contents
                  respStr request_body response_body hread hparse hctor hcall hresp,
                invoke_eq_success env model_id input_file output_file fs2 contents
                  respStr request_body response_body hread2 hparse hctor hcall hresp]
            exact ⟨rfl, rfl, fun h0 => by simp⟩

/-- C6 witness: two runs over distinct file systems agreeing on the
input file produce the same output file contents. -/
theorem claim_C6_witness :
    fsWithInput "input.json" =
      (fun p => if p = "input.json" then some "\x7b\"prompt\": \"hi\"\x7d"
                else some "junk" : FS) "input.json" ∧
    ((invoke_bedrock stubEnv "model" "input.json" "output.json" fsWithInput).exitCode =
      (invoke_bedrock stubEnv "model" "input.json" "output.json"
        (fun p => if p = "input.json" then some "\x7b\"prompt\": \"hi\"\x7d"
                  else some "junk")).exitCode ∧
     (invoke_bedrock stubEnv "model" "input.json" "output.json" fsWithInput).stdout =
      (invoke_bedrock stubEnv "model" "input.json" "output.json"
        (fun p => if p = "input.json" then some "\x7b\"prompt\": \"hi\"\x7d"
                  else some "junk")).stdout ∧
     ((invoke_bedrock stubEnv "model" "input.json" "output.json" fsWithInput).exitCode = 0 →
      (invoke_bedrock stubEnv "model" "input.json" "output.json" fsWithInput).fs
          "output.json" =
        (invoke_bedrock stubEnv "model" "input.json" "output.json"
          (fun p => if p = "input.json" then some "\x7b\"prompt\": \"hi\"\x7d"
                    else some "junk")).fs "output.json")) :=
  ⟨rfl, claim_C6 stubEnv "model" "input.json" "output.json" fsWithInput
    (fun p => if p = "input.json" then some "\x7b\"prompt\": \"hi\"\x7d" else some "junk")
    rfl⟩

/-- C7: every run that passes the argument-count gate prints exactly one
line to standard output, and it is the success line on exit code 0, or
one of the two JSON failure lines on exit code 1. -/
theorem claim_C7 (env : BotoEnv) (argv : List String) (fs : FS) (h : argv.length = 4) :
    (mainRun env argv fs).stdout.length = 1 ∧
    (((mainRun env argv fs).exitCode = 0 ∧ (mainRun env argv fs).stdout = [successLine]) ∨
     ((mainRun env argv fs).exitCode = 1 ∧ ∃ d,
        (mainRun env argv fs).stdout = [awsErrorLine d] ∨
        (mainRun env argv fs).stdout = [unexpectedErrorLine d])) := by
  have hmain : mainRun env argv fs =
      invoke_bedrock env (argv.getD 1 "") (argv.getD 2 "") (argv.getD 3 "") fs := by
    unfold mainRun
    rw [if_neg (by omega)]
  rw [hmain]
  cases hread : fs (argv.getD 2 "") with
  | none =>
    rw [invoke_eq_fnf env (argv.getD 1 "") (argv.getD 2 "") (argv.getD 3 "") fs hread]
    exact ⟨rfl, Or.inr ⟨rfl, fnfDetails (argv.getD 2 ""), Or.inr rfl⟩⟩
  | some contents =>
    cases hparse : env.loads contents with
    | error e =>
      rw [invoke_eq_parseErr env (argv.getD 1 "") (argv.getD 2 "") (argv.getD 3 "") fs
        contents e hread hparse]
      exact ⟨rfl, Or.inr ⟨rfl, e.toStr, Or.inr rfl⟩⟩
    | ok request_body =>
      cases hctor : env.clientCtorErr with
      | some d =>
        rw [invoke_eq_ctorErr env (argv.getD 1 "") (argv.getD 2 "") (argv.getD 3 "") fs
          contents request_body d hread hparse hctor]
        exact ⟨rfl, Or.inr ⟨rfl, d, Or.inr rfl⟩⟩
      | none =>
        cases hcall : env.invokeModel bedrockClient (argv.getD 1 "")
          (pyDumps true none request_body) with
        | clientErr d =>
          rw [invoke_eq_clientErr env (argv.getD 1 "") (argv.getD 2 "") (argv.getD 3 "") fs
            contents request_body d hread hparse hctor hcall]
          exact ⟨rfl, Or.inr ⟨rfl, d, Or.inl rfl⟩⟩
        | otherErr d =>
          rw [invoke_eq_otherErr env (argv.getD 1 "") (argv.getD 2 "") (argv.getD 3 "") fs
            contents request_body d hread hparse hctor hcall]
          exact ⟨rfl, Or.inr ⟨rfl, d, Or.inr rfl⟩⟩
        | ok respStr =>
          cases hresp : env.loads respStr with
          | error e =>
            rw [invoke_eq_respParseErr env (argv.getD 1 "") (argv.getD 2 "") (argv.getD 3 "")
              fs contents respStr request_body e hread hparse hctor hcall hresp]
            exact ⟨rfl, Or.inr ⟨rfl, e.toStr, Or.inr rfl⟩⟩
          | ok response_body =>
            rw [invoke_eq_success env (argv.getD 1 "") (argv.getD 2 "") (argv.getD 3 "") fs
              contents respStr request_body response_body hread hparse hctor hcall hresp]
            exact ⟨rfl, Or.inl ⟨rfl, rfl⟩⟩

/-- C7 witness: the stubbed successful run prints exactly the success
line. -/
theorem claim_C7_witness :
    (["invoke_bedrock.py", "model", "input.json", "output.json"] : List String).length = 4 ∧
    ((mainRun stubEnv ["invoke_bedrock.py", "model", "input.json", "output.json"]
        fsWithInput).stdout.length = 1 ∧
     (((mainRun stubEnv ["invoke_bedrock.py", "model", "input.json", "output.json"]
          fsWithInput).exitCode = 0 ∧
       (mainRun stubEnv ["invoke_bedrock.py", "model", "input.json", "output.json"]
          fsWithInput).stdout = [successLine]) ∨
      ((mainRun stubEnv ["invoke_bedrock.py", "model", "input.json", "output.json"]
          fsWithInput).exitCode = 1 ∧ ∃ d,
         (mainRun stubEnv ["invoke_bedrock.py", "model", "input.json", "output.json"]
            fsWithInput).stdout = [awsErrorLine d] ∨
         (mainRun stubEnv ["invoke_bedrock.py", "model", "input.json", "output.json"]
            fsWithInput).stdout = [unexpectedErrorLine d]))) :=
  ⟨rfl, claim_C7 stubEnv ["invoke_bedrock.py", "model", "input.json", "output.json"]
    fsWithInput rfl⟩

/-- C8: every remote call any run performs goes to the hardcoded region
`ap-northeast-1` and service `bedrock-runtime`, whatever the arguments,
file contents and environment are. -/
theorem claim_C8 (env : BotoEnv) (argv : List String) (fs : FS)
    (region service modelId body : String)
    (h : Event.remoteCall region service modelId body ∈ (mainRun env argv fs).trace) :
    region = "ap-northeast-1" ∧ service = "bedrock-runtime" := by
  by_cases hlen : argv.length = 4
  · have hmain : mainRun env argv fs =
        invoke_bedrock env (argv.getD 1 "") (argv.getD 2 "") (argv.getD 3 "") fs := by
      unfold mainRun
      rw [if_neg (by omega)]
    rw [hmain] at h
    cases hread : fs (argv.getD 2 "") with
    | none =>
      rw [invoke_eq_fnf env (argv.getD 1 "") (argv.getD 2 "") (argv.getD 3 "") fs hread] at h
      simp [failWith] at h
    | some contents =>
      cases hparse : env.loads contents with
      | error e =>
        rw [invoke_eq_parseErr env (argv.getD 1 "") (argv.getD 2 "") (argv.getD 3 "") fs
          contents e hread hparse] at h
        simp [failWith] at h
      | ok request_body =>
        cases hctor : env.clientCtorErr with
        | some d =>
          rw [invoke_eq_ctorErr env (argv.getD 1 "") (argv.getD 2 "") (argv.getD 3 "") fs
            contents request_body d hread hparse hctor] at h
          simp [failWith] at h
        | none =>
          cases hcall : env.invokeModel bedrockClient (argv.getD 1 "")
            (pyDumps true none request_body) with
          | clientErr d =>
            rw [invoke_eq_clientErr env (argv.getD 1 "") (argv.getD 2 "") (argv.getD 3 "") fs
              contents request_body d hread hparse hctor hcall] at h
            simp only [failWith, List.mem_cons, List.not_mem_nil, or_false] at h
            rcases h with h | h
            · cases h
            · cases h
              exact ⟨rfl, rfl⟩
          | otherErr d =>
            rw [invoke_eq_otherErr env (argv.getD 1 "") (argv.getD 2 "") (argv.getD 3 "") fs
              contents request_body d hread hparse hctor hcall] at h
            simp only [failWith, List.mem_cons, List.not_mem_nil, or_false] at h
            rcases h with h | h
            · cases h
            · cases h
              exact ⟨rfl, rfl⟩
          | ok respStr =>
            cases hresp : env.loads respStr with
            | error e =>
              rw [invoke_eq_respParseErr env (argv.getD 1 "") (argv.getD 2 "")
                (argv.getD 3 "") fs contents respStr request_body e
                hread hparse hctor hcall hresp] at h
              simp only [failWith, List.mem_cons, List.not_mem_nil, or_false] at h
              rcases h with h | h
              · cases h
              · cases h
                exact ⟨rfl, rfl⟩
            | ok response_body =>
              rw [invoke_eq_success env (argv.getD 1 "") (argv.getD 2 "") (argv.getD 3 "")
                fs contents respStr request_body response_body
                hread hparse hctor hcall hresp] at h
              simp only [List.mem_cons, List.not_mem_nil, or_false] at h
              rcases h with h | h | h
              · cases h
              · cases h
                exact ⟨rfl, rfl⟩
              · cases h
  · have hrun : mainRun env argv fs =
        { exitCode := 1, stdout := [usageLine], fs := fs, trace := [] } := by
      unfold mainRun
      rw [if_pos hlen]
    rw [hrun] at h
    simp at h

/-- C8 witness: the remote call of the stubbed successful run carries
the hardcoded region and service. -/
theorem claim_C8_witness :
    Event.remoteCall "ap-northeast-1" "bedrock-runtime" "model"
        (pyDumps true none (.obj [("prompt", .str "hi")])) ∈
      (mainRun stubEnv ["invoke_bedrock.py", "model", "input.json", "output.json"]
        fsWithInput).trace ∧
    ("ap-northeast-1" : String) = "ap-northeast-1" ∧
    ("bedrock-runtime" : String) = "bedrock-runtime" :=
  ⟨by decide,
   claim_C8 stubEnv ["invoke_bedrock.py", "model", "input.json", "output.json"] fsWithInput
     "ap-northeast-1" "bedrock-runtime" "model"
     (pyDumps true none (.obj [("prompt", .str "hi")])) (by decide)⟩

/-- C9: the output file is opened for writing only on the all-success
path, strictly after the remote call in the trace; every failing run
leaves the whole file system (in particular any pre-existing output
file) untouched and opens nothing for writing. -/
theorem claim_C9 (env : BotoEnv) (model_id input_file output_file : String) (fs : FS) :
    ((invoke_bedrock env model_id input_file output_file fs).exitCode = 1 →
      (invoke_bedrock env model_id input_file output_file fs).fs = fs ∧
      ∀ p, Event.openWrite p ∉ (invoke_bedrock env model_id input_file output_file fs).trace)
    ∧
    (∀ p, Event.openWrite p ∈ (invoke_bedrock env model_id input_file output_file fs).trace →
      (invoke_bedrock env model_id input_file output_file fs).exitCode = 0 ∧
      p = output_file ∧
      ∃ body, (invoke_bedrock env model_id input_file output_file fs).trace =
        [Event.openRead input_file,
         Event.remoteCall "ap-northeast-1" "bedrock-runtime" model_id body,
         Event.openWrite output_file]) := by
  cases hread : fs input_file with
  | none =>
    rw [invoke_eq_fnf env model_id input_file output_file fs hread]
    refine ⟨fun _ => ⟨rfl, fun p => by simp [failWith]⟩, fun p hp => ?_⟩
    simp [failWith] at hp
  | some contents =>
    cases hparse : env.loads contents with
    | error e =>
      rw [invoke_eq_parseErr env model_id input_file output_file fs contents e hread hparse]
      refine ⟨fun _ => ⟨rfl, fun p => by simp [failWith]⟩, fun p hp => ?_⟩
      simp [failWith] at hp
    | ok request_body =>
      cases hctor : env.clientCtorErr with
      | some d =>
        rw [invoke_eq_ctorErr env model_id input_file output_file fs contents request_body d
          hread hparse hctor]
        refine ⟨fun _ => ⟨rfl, fun p => by simp [failWith]⟩, fun p hp => ?_⟩
        simp [failWith] at hp
      | none =>
        cases hcall : env.invokeModel bedrockClient model_id
          (pyDumps true none request_body) with
        | clientErr d =>
          rw [invoke_eq_clientErr env model_id input_file output_file fs contents
            request_body d hread hparse hctor hcall]
          refine ⟨fun _ => ⟨rfl, fun p => by simp [failWith]⟩, fun p hp => ?_⟩
          simp [failWith] at hp
        | otherErr d =>
          rw [invoke_eq_otherErr env model_id input_file output_file fs contents
            request_body d hread hparse hctor hcall]
          refine ⟨fun _ => ⟨rfl, fun p => by simp [failWith]⟩, fun p hp => ?_⟩
          simp [failWith] at hp
        | ok respStr =>
          cases hresp : env.loads respStr with
          | error e =>
            rw [invoke_eq_respParseErr env model_id input_file output_file fs contents
              respStr request_body e hread hparse hctor hcall hresp]
            refine ⟨fun _ => ⟨rfl, fun p => by simp [failWith]⟩, fun p hp => ?_⟩
            simp [failWith] at hp
          | ok response_body =>
            rw [invoke_eq_success env model_id input_file output_file fs contents respStr
              request_body response_body hread hparse hctor hcall hresp]
            refine ⟨fun h0 => absurd h0 (by simp), fun p hp => ?_⟩
            simp only [List.mem_cons, List.not_mem_nil, or_false] at hp
            rcases hp with hp | hp | hp
            · cases hp
            · cases hp
            · cases hp
              exact ⟨rfl, rfl, pyDumps true none request_body, rfl⟩

/-- C9 witness: a failing run (missing input) leaves the file system
untouched and never opens the output file for writing. -/
theorem claim_C9_witness :
    (invoke_bedrock stubEnv "model" "input.json" "output.json" fsEmpty).fs = fsEmpty ∧
    ∀ p, Event.openWrite p ∉
      (invoke_bedrock stubEnv "model" "input.json" "output.json" fsEmpty).trace :=
  (claim_C9 stubEnv "model" "input.json" "output.json" fsEmpty).1 rfl

/-- C10: whenever a run reaches the remote call, the request body it
sends is exactly the default `json.dumps` re-serialization of the parsed
input value — a single-line, all-ASCII string (in general not
byte-identical to the contents of the input file). -/
theorem claim_C10 (env : BotoEnv) (model_id input_file output_file : String) (fs : FS)
    (contents : String) (request_body : JVal)
    (hread : fs input_file = some contents)
    (hparse : env.loads contents = .ok request_body)
    (hctor : env.clientCtorErr = none) :
    Event.remoteCall "ap-northeast-1" "bedrock-runtime" model_id
        (pyDumps true none request_body) ∈
      (invoke_bedrock env model_id input_file output_file fs).trace ∧
    (∀ c ∈ (pyDumps true none request_body).data, c.toNat < 128) ∧
    '\n' ∉ (pyDumps true none request_body).data := by
  refine ⟨?_, ?_, ?_⟩
  · cases hcall : env.invokeModel bedrockClient model_id
      (pyDumps true none request_body) with
    | clientErr d =>
      rw [invoke_eq_clientErr env model_id input_file output_file fs contents
        request_body d hread hparse hctor hcall]
      simp [failWith]
    | otherErr d =>
      rw [invoke_eq_otherErr env model_id input_file output_file fs contents
        request_body d hread hparse hctor hcall]
      simp [failWith]
    | ok respStr =>
      cases hresp : env.loads respStr with
      | error e =>
        rw [invoke_eq_respParseErr env model_id input_file output_file fs contents
          respStr request_body e hread hparse hctor hcall hresp]
        simp [failWith]
      | ok response_body =>
        rw [invoke_eq_success env model_id input_file output_file fs contents respStr
          request_body response_body hread hparse hctor hcall hresp]
        simp
  · intro c hc
    have h2 := pyDumps_true_none_ascii request_body c hc
    unfold asciiVis at h2
    omega
  · intro hmem
    have h2 := pyDumps_true_none_ascii request_body '\n' hmem
    unfold asciiVis at h2
    have h3 : ('\n').toNat = 10 := rfl
    omega

/-- C10 witness: the stubbed run sends the compact default serialization
of the example request, which differs from the bytes of the input file only
in whitespace. -/
theorem claim_C10_witness :
    Event.remoteCall "ap-northeast-1" "bedrock-runtime" "model"
        (pyDumps true none (.obj [("prompt", .str "hi")])) ∈
      (invoke_bedrock stubEnv "model" "input.json" "output.json" fsWithInput).trace ∧
    (∀ c ∈ (pyDumps true none (JVal.obj [("prompt", JVal.str "hi")])).data, c.toNat < 128) ∧
    '\n' ∉ (pyDumps true none (JVal.obj [("prompt", JVal.str "hi")])).data :=
  claim_C10 stubEnv "model" "input.json" "output.json" fsWithInput
    "\x7b\"prompt\": \"hi\"\x7d" (.obj [("prompt", .str "hi")]) rfl rfl rfl
